import Mathlib

/-
Verification of the port/connection model of rtctree (src/rtctree/ports.py).

Shallow embedding conventions:
- A Python dict is an association list `List (String × String)` with unique
  keys, preserving insertion order; `lookupDict` is `d[k]` returning `none`
  where Python raises `KeyError`.
- The remote CORBA PortService object is identified by a `PortRef`;
  `_is_equivalent` is equality of `rid`.
- Remote calls are parameters of the functions that perform them: the
  framework's `connect` is `connectRC : ConnectorProfile → Nat` (the returned
  status code), `get_connector_profiles` is a `List ConnectorProfile`
  argument, a profile fetch is a `PortProfile` argument.
- Mutation is explicit state passing: functions return the updated objects.
- String helpers used by the source (`split(',')`, `strip()`, `lower()`,
  substring `in`, `'_'.join`, `startswith`) are translated to structurally
  recursive functions over the character list so that concrete evaluation
  works inside kernel-checked proofs.
-/

set_option autoImplicit false

/-- Python `s.split(c)` over a character list: splits at every occurrence of
the separator, keeping empty pieces (so the result always has
occurrences + 1 entries). -/
def splitOnChar (c : Char) : List Char → List (List Char)
  | [] => [[]]
  | x :: rest =>
      let r := splitOnChar c rest
      if x = c then [] :: r
      else
        match r with
        | [] => [[x]]
        | g :: gs => (x :: g) :: gs

/-- Python `s.split(',')`. -/
def pySplitComma (s : String) : List String :=
  (splitOnChar ',' s.toList).map (fun cs => String.mk cs)

/-- Python `s.strip()` (ASCII whitespace, which covers the values used). -/
def pyStrip (s : String) : String :=
  String.mk
    (((s.toList.dropWhile Char.isWhitespace).reverse.dropWhile
        Char.isWhitespace).reverse)

/-- Python `s.lower()` (ASCII case folding, which covers the values used). -/
def pyLower (s : String) : String :=
  String.mk (s.toList.map Char.toLower)

/-- Boolean list-prefix test. -/
def listIsPrefix : List Char → List Char → Bool
  | [], _ => true
  | _ :: _, [] => false
  | a :: ps, b :: ss => a = b && listIsPrefix ps ss

/-- Boolean substring occurrence test over character lists. -/
def listContainsSub (needle : List Char) : List Char → Bool
  | [] => listIsPrefix needle []
  | c :: rest => listIsPrefix needle (c :: rest) || listContainsSub needle rest

/-- Python `needle in hay` on strings. -/
def pyContains (needle hay : String) : Bool :=
  listContainsSub needle.toList hay.toList

/-- Python `sep.join(xs)`. -/
def pyJoin (sep : String) : List String → String
  | [] => ""
  | [x] => x
  | x :: y :: rest => x ++ sep ++ pyJoin sep (y :: rest)

/-- Python `s.startswith(p)`. -/
def pyStartsWith (s p : String) : Bool :=
  listIsPrefix p.toList s.toList

/-- Python `s[n:]` (drop the first `n` characters). -/
def pyDropChars (s : String) (n : Nat) : String :=
  String.mk (s.toList.drop n)

/-- One key of a decoded property dict: `d[k]`, `none` where Python raises
`KeyError`. -/
def lookupDict (d : List (String × String)) (k : String) : Option String :=
  (d.find? (fun kv => kv.1 == k)).map (fun kv => kv.2)

/-- Python `if k not in d: d[k] = v` on an insertion-ordered dict: a fresh key
is appended at the end. -/
def setDefault (d : List (String × String)) (k v : String) :
    List (String × String) :=
  match lookupDict d k with
  | some _ => d
  | none => d ++ [(k, v)]

/-- Python truthiness of an optional-list cache field: `None` and `[]` are
both falsy (`if not self._connections:` / `if not self._interfaces:`). -/
def cacheEmpty {α : Type} : Option (List α) → Bool
  | none => true
  | some l => l.isEmpty

/-- Exceptions raised in ports.py (from rtctree.exceptions), plus Python's
KeyError for a missing dict key.  `FailedToConnectError` carries the status
code returned by the remote framework. -/
inductive RtcError where
  | IncompatibleDataPortConnectionPropsError : RtcError
  | FailedToConnectError : Nat → RtcError
  | WrongPortTypeError : RtcError
  | MismatchedInterfacesError : RtcError
  | MismatchedPolarityError : RtcError
  | NotConnectedError : RtcError
  | UnknownConnectionOwnerError : RtcError
  | KeyError : RtcError
deriving DecidableEq

/-- The success value of RTC.ReturnCode_t; status codes are modelled as Nat
with 0 = RTC_OK. -/
def RTC_OK : Nat := 0

deriving instance DecidableEq for Except

/-- Identity of a remote CORBA PortService object. -/
structure PortRef where
  rid : Nat
deriving DecidableEq

/-- RTC.ConnectorProfile: (name, connector_id, ports, properties), with the
property nvlist already decoded to a dict (the codec is a bijection and out
of scope here). -/
structure ConnectorProfile where
  name : String
  connector_id : String
  ports : List PortRef
  properties : List (String × String)
deriving DecidableEq

/-- Polarity constant SvcInterface.PROVIDED. -/
def PROVIDED : Nat := 1

/-- Polarity constant SvcInterface.REQUIRED. -/
def REQUIRED : Nat := 2

/-- SvcInterface: the parsed PortInterfaceProfile (instance name, type name,
polarity). -/
structure SvcInterface where
  instance_name : String
  type_name : String
  polarity : Nat
deriving DecidableEq

/-- The parsed PortProfile returned by a remote `get_port_profile()` call:
name, decoded properties, and (for service ports) the interface list. -/
structure PortProfile where
  name : String
  properties : List (String × String)
  interfaces : List SvcInterface
deriving DecidableEq

/-- Connection: the parsed ConnectorProfile wrapper.  `ports` is the value of
the lazy endpoint-resolution property: each record is either
(qualified path, some resolved-port reference) or ("Unknown", none) when the
owner could not be found in the tree.  Resolution itself goes through the
external tree collaborator; it is modelled as already performed, since no
claim depends on when it happens. -/
structure Connection where
  name : String
  id : String
  properties : List (String × String)
  ports : List (String × Option PortRef)
deriving DecidableEq

/-- Port: the base object's state.  `porttype` is `self.__class__.__name__`
("Port" | "DataInPort" | "DataOutPort" | "CorbaPort"); `owner` is the owning
component's instance_name when there is an owner (used only for the name
prefix stripping in `_parse`); `connCache` is `self._connections`. -/
structure Port where
  porttype : String
  obj : PortRef
  owner : Option String
  name : String
  properties : List (String × String)
  connCache : Option (List Connection)
deriving DecidableEq

/-- Port._parse: refresh `_name` and `_properties` from a freshly fetched
profile, stripping the owner's `instance_name + '.'` name prefix. -/
def Port.parseProfile (self : Port) (profile : PortProfile) : Port :=
  let n := profile.name
  let n :=
    match self.owner with
    | none => n
    | some inst =>
        let pfx := inst ++ "."
        if pyStartsWith n pfx then pyDropChars n pfx.length else n
  { self with name := n, properties := profile.properties }

/-- Port.reparse_connections: `self._connections = None`. -/
def Port.reparse_connections (self : Port) : Port :=
  { self with connCache := none }

/-- Port.reparse: `self._parse()` then `self.reparse_connections()`. -/
def Port.reparse (self : Port) (profile : PortProfile) : Port :=
  (self.parseProfile profile).reparse_connections

/-- Building a Connection from one fetched ConnectorProfile
(`Connection(cp, self)`); endpoint resolution is modelled by `resolve`. -/
def mkConnection (cp : ConnectorProfile)
    (resolve : PortRef → String × Option PortRef) : Connection :=
  { name := cp.name, id := cp.connector_id, properties := cp.properties,
    ports := cp.ports.map resolve }

/-- Port.connections: the lazy connection-list property.  `cps` is what the
remote `get_connector_profiles()` would return right now.  The result is
(value, updated port, whether a remote fetch happened).  The cache test is
`if not self._connections:`, so `None` and `[]` both trigger a fetch. -/
def Port.connections (self : Port) (cps : List ConnectorProfile)
    (resolve : PortRef → String × Option PortRef) :
    List Connection × Port × Bool :=
  if cacheEmpty self.connCache then
    let l := cps.map (fun cp => mkConnection cp resolve)
    (l, { self with connCache := some l }, true)
  else
    (self.connCache.getD [], self, false)

/-- `[x.strip() for x in s.split(',')]` — the advertised allowed values. -/
def allowedValues (s : String) : List String :=
  (pySplitComma s).map pyStrip

/-- `'any' in s.lower()` — the wildcard test the source applies to the whole
advertised string (a substring test, not a membership test). -/
def containsAny (s : String) : Bool :=
  pyContains "any" (pyLower s)

/-- One step of the negotiation check: the requested `val` for `key` is
incompatible with an advertised property dict when the key is advertised,
the value is not among the comma-separated allowed values, and the wildcard
substring "any" does not occur in the advertised string. -/
def propIncompatible (advertised : List (String × String)) (key val : String) :
    Bool :=
  match lookupDict advertised key with
  | none => false
  | some s => !((allowedValues s).contains val) && !(containsAny s)

/-- The whole validation loop of Port.connect lines 101-112: some requested
property is incompatible with this port's or some destination's advertised
properties.  The source raises at the first offender; since every raise is
the same exception, an existence test is observably equivalent. -/
def anyIncompatibleProp (self : Port) (dests : List Port)
    (props : List (String × String)) : Bool :=
  props.any (fun kv =>
    propIncompatible self.properties kv.1 kv.2 ||
    dests.any (fun d => propIncompatible d.properties kv.1 kv.2))

/-- `self.name + '_'.join([d.name for d in dests])` — the default connection
name. -/
def defaultConnectionName (self : Port) (dests : List Port) : String :=
  self.name ++ pyJoin "_" (dests.map Port.name)

/-- `if not name: name = ...` — both `None` and the empty string trigger the
default. -/
def effectiveName (self : Port) (dests : List Port) : Option String → String
  | none => defaultConnectionName self dests
  | some s => if s = "" then defaultConnectionName self dests else s

/-- Observable outcome of one call to Port.connect: the result (an exception
or unit), the profile passed to the remote `connect` if that call was made,
and the final states of this port and the destinations. -/
structure ConnectCall where
  result : Except RtcError Unit
  sent : Option ConnectorProfile
  selfAfter : Port
  destsAfter : List Port
deriving DecidableEq

/-- Port.connect (lines 99-123).  The negotiation check runs only when this
port's type tag is DataInPort or DataOutPort; then the composite profile is
built (with the default name when `name` is None or empty) and sent; a
non-RTC_OK status raises FailedToConnectError(code) with no state change;
on RTC_OK the connection caches of this port and every destination are
cleared (reparse_connections), not refetched. -/
def Port.connect (self : Port) (dests : List Port) (name : Option String)
    (id : String) (props : List (String × String))
    (connectRC : ConnectorProfile → Nat) : ConnectCall :=
  if (self.porttype == "DataInPort" || self.porttype == "DataOutPort")
      && anyIncompatibleProp self dests props then
    { result := .error .IncompatibleDataPortConnectionPropsError,
      sent := none, selfAfter := self, destsAfter := dests }
  else
    let nm := effectiveName self dests name
    let profile : ConnectorProfile :=
      { name := nm, connector_id := id,
        ports := self.obj :: dests.map Port.obj, properties := props }
    let rc := connectRC profile
    if rc ≠ RTC_OK then
      { result := .error (.FailedToConnectError rc), sent := some profile,
        selfAfter := self, destsAfter := dests }
    else
      { result := .ok (), sent := some profile,
        selfAfter := self.reparse_connections,
        destsAfter := dests.map Port.reparse_connections }

/-- DataPort.connect (lines 277-313): direction checks against the
destination type tags, then the four dataport defaults, then the base
connect.  Reading `self.properties['dataport.data_type']` raises KeyError
when this port does not advertise a data type. -/
def DataPort.connect (self : Port) (dests : List Port) (name : Option String)
    (id : String) (props : List (String × String))
    (connectRC : ConnectorProfile → Nat) : ConnectCall :=
  let ptypes := dests.map Port.porttype
  if self.porttype == "DataInPort" && !(ptypes.contains "DataOutPort") then
    { result := .error .WrongPortTypeError, sent := none,
      selfAfter := self, destsAfter := dests }
  else if self.porttype == "DataOutPort" && !(ptypes.contains "DataInPort") then
    { result := .error .WrongPortTypeError, sent := none,
      selfAfter := self, destsAfter := dests }
  else
    let new_props := setDefault props "dataport.dataflow_type" "push"
    let new_props := setDefault new_props "dataport.interface_type" "corba_cdr"
    let new_props := setDefault new_props "dataport.subscription_type" "new"
    match lookupDict new_props "dataport.data_type" with
    | some _ => Port.connect self dests name id new_props connectRC
    | none =>
        match lookupDict self.properties "dataport.data_type" with
        | none =>
            { result := .error .KeyError, sent := none,
              selfAfter := self, destsAfter := dests }
        | some v =>
            Port.connect self dests name id
              (new_props ++ [("dataport.data_type", v)]) connectRC

/-- CorbaPort: the base port state plus `self._interfaces` and (as a model
of the remote) the interface list the current remote profile carries. -/
structure CorbaPort where
  port : Port
  intfCache : Option (List SvcInterface)
  remoteIntfs : List SvcInterface
deriving DecidableEq

/-- CorbaPort.interfaces (lines 411-426): the lazy interface-list property.
Result is (value, updated port, whether a remote profile fetch happened).
The cache test is `if not self._interfaces:`, so `None` and `[]` both
trigger a fetch. -/
def CorbaPort.interfaces (self : CorbaPort) :
    List SvcInterface × CorbaPort × Bool :=
  if cacheEmpty self.intfCache then
    (self.remoteIntfs, { self with intfCache := some self.remoteIntfs }, true)
  else
    (self.intfCache.getD [], self, false)

/-- The value `self.interfaces` evaluates to (the cache-population side
effect of the read is tracked only by `CorbaPort.interfaces` itself; inside
connect only the value feeds the checks). -/
def CorbaPort.interfacesVal (self : CorbaPort) : List SvcInterface :=
  (self.interfaces).1

/-- CorbaPort.get_interface_by_instance_name: first interface with the given
instance name, else None. -/
def CorbaPort.get_interface_by_instance_name (self : CorbaPort)
    (name : String) : Option SvcInterface :=
  (self.interfacesVal).find? (fun intf => intf.instance_name == name)

/-- CorbaPort inherits Port.reparse unchanged: `_parse` refreshes name and
properties, `reparse_connections` clears the connection cache; nothing
touches `self._interfaces`.  The `remoteIntfs` model field tracks the
current remote profile's interface list. -/
def CorbaPort.reparse (self : CorbaPort) (profile : PortProfile) : CorbaPort :=
  { self with port := (self.port.reparse profile),
              remoteIntfs := profile.interfaces }

/-- Inner loop of the interface check (lines 384-391) for one declared
interface: scan the destinations in order; a destination without a matching
instance name raises MismatchedInterfacesError, a match with equal polarity
raises MismatchedPolarityError. -/
def checkIntfAgainstDests (intf : SvcInterface) :
    List CorbaPort → Except RtcError Unit
  | [] => .ok ()
  | d :: rest =>
      match d.get_interface_by_instance_name intf.instance_name with
      | none => .error .MismatchedInterfacesError
      | some m =>
          if intf.polarity == m.polarity then .error .MismatchedPolarityError
          else checkIntfAgainstDests intf rest

/-- Outer loop of the interface check (lines 383-391): the declared
interfaces in order, stopping at the first exception. -/
def checkIntfsAgainstDests :
    List SvcInterface → List CorbaPort → Except RtcError Unit
  | [], _ => .ok ()
  | intf :: rest, dests =>
      match checkIntfAgainstDests intf dests with
      | .error e => .error e
      | .ok _ => checkIntfsAgainstDests rest dests

/-- Observable outcome of one call to CorbaPort.connect. -/
structure CorbaConnectCall where
  result : Except RtcError Unit
  sent : Option ConnectorProfile
  selfAfter : CorbaPort
  destsAfter : List CorbaPort
deriving DecidableEq

/-- The validation phase of CorbaPort.connect (lines 372-395), in source
order: every destination must have type tag CorbaPort (WrongPortTypeError);
when this port declares interfaces, a destination with no interfaces raises
MismatchedInterfacesError (the pre-loop of lines 380-382) and then each
declared interface is checked against each destination; when this port
declares none, a destination declaring some raises
MismatchedInterfacesError. -/
def corbaChecks (self : CorbaPort) (dests : List CorbaPort) :
    Except RtcError Unit :=
  if dests.any (fun d => !(d.port.porttype == "CorbaPort")) then
    .error .WrongPortTypeError
  else if !(self.interfacesVal).isEmpty then
    if dests.any (fun d => (d.interfacesVal).isEmpty) then
      .error .MismatchedInterfacesError
    else checkIntfsAgainstDests self.interfacesVal dests
  else if dests.any (fun d => !(d.interfacesVal).isEmpty) then
    .error .MismatchedInterfacesError
  else .ok ()

/-- The base call CorbaPort.connect delegates to once all its checks pass
(lines 397-401): the base connect on the underlying ports with the
port.port_type default injected. -/
def corbaBaseCall (self : CorbaPort) (dests : List CorbaPort)
    (name : Option String) (id : String) (props : List (String × String))
    (connectRC : ConnectorProfile → Nat) : ConnectCall :=
  Port.connect self.port (dests.map CorbaPort.port) name id
    (setDefault props "port.port_type" "CorbaPort") connectRC

/-- CorbaPort.connect (lines 355-401): the validation phase (any raised
exception propagates with no remote call and no state change), then the
base Port.connect on the underlying ports (on success the base clears this
port's and each destination's connection cache). -/
def CorbaPort.connect (self : CorbaPort) (dests : List CorbaPort)
    (name : Option String) (id : String) (props : List (String × String))
    (connectRC : ConnectorProfile → Nat) : CorbaConnectCall :=
  match corbaChecks self dests with
  | .error e =>
      { result := .error e, sent := none,
        selfAfter := self, destsAfter := dests }
  | .ok _ =>
      let base := corbaBaseCall self dests name id props connectRC
      { result := base.result, sent := base.sent,
        selfAfter := { self with port := base.selfAfter },
        destsAfter :=
          match base.result with
          | .ok _ =>
              dests.map (fun d => { d with port := d.port.reparse_connections })
          | .error _ => dests }

/-- The while loop of Connection.disconnect (lines 542-546): the first
endpoint record whose Port resolved. -/
def findResolvedPort : List (String × Option PortRef) → Option PortRef
  | [] => none
  | (_, some p) :: _ => some p
  | (_, none) :: rest => findResolvedPort rest

/-- Connection.disconnect (lines 533-549): NotConnectedError on an empty
endpoint list; else the first resolved endpoint issues
`p.object.disconnect(self.id)` — modelled as returning that port reference
and the connection id — and UnknownConnectionOwnerError when no endpoint
resolved. -/
def Connection.disconnect (c : Connection) :
    Except RtcError (PortRef × String) :=
  if c.ports.isEmpty then .error .NotConnectedError
  else
    match findResolvedPort c.ports with
    | none => .error .UnknownConnectionOwnerError
    | some p => .ok (p, c.id)

/-- Connection.has_port (lines 551-564): some resolved endpoint is
remote-identity-equal to the given port; unresolved endpoints never match. -/
def Connection.has_port (c : Connection) (port : Port) : Bool :=
  c.ports.any (fun e =>
    match e.2 with
    | none => false
    | some q => q.rid == port.obj.rid)

/-- Port.get_connections_by_dests (lines 149-160), translated exactly: for
each connection involving this port, the source runs
`for d in dests: if not c.has_port(d): continue` — but that `continue`
targets the inner loop, whose body has no further statement, so the loop has
no effect and the connection is appended unconditionally.  `conns` is the
value of the cached `self.connections` property. -/
def Port.get_connections_by_dests (self : Port) (conns : List Connection)
    (dests : List Port) : List Connection :=
  conns.foldl
    (fun res c =>
      if !(c.has_port self) then res
      else
        let _ := dests.map (fun d => c.has_port d)
        res ++ [c])
    []

/-- Port.get_connections_by_dest (lines 140-147): all connections involving
both this port and the given destination. -/
def Port.get_connections_by_dest (self : Port) (conns : List Connection)
    (dest : Port) : List Connection :=
  conns.foldl
    (fun res c => if c.has_port self && c.has_port dest then res ++ [c] else res)
    []

/-- The class a port object would get (parse_port constructs an instance of
the named class; construction itself only stores the reference and parses
the profile). -/
inductive PortKind where
  | DataInPort : PortKind
  | DataOutPort : PortKind
  | CorbaPort : PortKind
  | Port : PortKind
deriving DecidableEq

/-- parse_port (lines 36-56): fetch the profile, decode its properties
(`props` here), and dispatch on `props['port.port_type']` — a dict indexing
that raises KeyError when the key is absent. -/
def parse_port (props : List (String × String)) : Except RtcError PortKind :=
  match lookupDict props "port.port_type" with
  | none => .error .KeyError
  | some t =>
      if t == "DataInPort" then .ok .DataInPort
      else if t == "DataOutPort" then .ok .DataOutPort
      else if t == "CorbaPort" then .ok .CorbaPort
      else .ok .Port

/- Concrete fixtures used by witnesses and counterexamples. -/

/-- A connection with no endpoints, used only as inert cache content. -/
def fxConn : Connection :=
  { name := "fc", id := "fid", properties := [], ports := [] }

/-- A generic port with a populated connection cache. -/
def fxA : Port :=
  { porttype := "Port", obj := ⟨10⟩, owner := none, name := "a",
    properties := [], connCache := some [fxConn] }

/-- A second generic port with a populated connection cache. -/
def fxB : Port :=
  { porttype := "Port", obj := ⟨11⟩, owner := none, name := "b",
    properties := [], connCache := some [fxConn] }

/-- A generic port advertising the negotiable property k = a. -/
def fxGenProp : Port :=
  { porttype := "Port", obj := ⟨12⟩, owner := none, name := "p0",
    properties := [("k", "a")], connCache := none }

/-- A data-in port advertising the negotiable property k = a. -/
def fxDinProp : Port :=
  { porttype := "DataInPort", obj := ⟨13⟩, owner := none, name := "dp",
    properties := [("k", "a")], connCache := none }

/-- A data-in port with a declared data type. -/
def fxDinA : Port :=
  { porttype := "DataInPort", obj := ⟨14⟩, owner := none, name := "din1",
    properties := [("dataport.data_type", "TimedLong")], connCache := none }

/-- A second data-in port. -/
def fxDinB : Port :=
  { porttype := "DataInPort", obj := ⟨15⟩, owner := none, name := "din2",
    properties := [("dataport.data_type", "TimedLong")], connCache := none }

/-- The interface A with Provided polarity. -/
def fxIntfProvA : SvcInterface :=
  { instance_name := "A", type_name := "T", polarity := PROVIDED }

/-- The interface A with Required polarity. -/
def fxIntfReqA : SvcInterface :=
  { instance_name := "A", type_name := "T", polarity := REQUIRED }

/-- A different interface, used as the post-change remote state. -/
def fxIntfB : SvcInterface :=
  { instance_name := "B", type_name := "U", polarity := REQUIRED }

/-- Base port state for a service port. -/
def fxSvcBase (n : Nat) (nm : String) : Port :=
  { porttype := "CorbaPort", obj := ⟨n⟩, owner := none, name := nm,
    properties := [], connCache := none }

/-- A service port providing interface A. -/
def fxSvcProv : CorbaPort :=
  { port := fxSvcBase 20 "sp", intfCache := none, remoteIntfs := [fxIntfProvA] }

/-- A service port requiring interface A. -/
def fxSvcReq : CorbaPort :=
  { port := fxSvcBase 21 "sr", intfCache := none, remoteIntfs := [fxIntfReqA] }

/-- A second service port providing interface A. -/
def fxSvcProvB : CorbaPort :=
  { port := fxSvcBase 22 "sp2", intfCache := none, remoteIntfs := [fxIntfProvA] }

/-- A destination that is not a service port. -/
def fxSvcBad : CorbaPort :=
  { port := { porttype := "DataInPort", obj := ⟨23⟩, owner := none,
              name := "bad", properties := [], connCache := none },
    intfCache := none, remoteIntfs := [] }

/-- A connection whose sole endpoint did not resolve. -/
def fxConnUnknown : Connection :=
  { name := "cu", id := "idu", properties := [], ports := [("Unknown", none)] }

/-- A connection with one unresolved and one resolved endpoint. -/
def fxConnMixed : Connection :=
  { name := "cm", id := "idm", properties := [],
    ports := [("Unknown", none), ("x", some ⟨5⟩)] }

/-- A port with an invalidated connection cache. -/
def fxC6 : Port :=
  { porttype := "Port", obj := ⟨30⟩, owner := none, name := "e",
    properties := [], connCache := none }

/-- A connector profile as returned by the remote framework. -/
def fxCp : ConnectorProfile :=
  { name := "c6", connector_id := "i6", ports := [], properties := [] }

/-- An endpoint resolution that finds no owner. -/
def fxResolve : PortRef → String × Option PortRef :=
  fun _ => ("Unknown", none)

/-- A service port whose interface cache holds the non-empty list [A]. -/
def fxCorbaCached : CorbaPort :=
  { port := fxSvcBase 24 "cc", intfCache := some [fxIntfProvA],
    remoteIntfs := [fxIntfProvA] }

/-- A freshly fetched profile whose interface list has changed to [B]. -/
def fxProf : PortProfile :=
  { name := "cc", properties := [], interfaces := [fxIntfB] }

/-- The port whose connections are searched in the C9 failing input. -/
def fxBugSelf : Port :=
  { porttype := "Port", obj := ⟨40⟩, owner := none, name := "s",
    properties := [], connCache := none }

/-- The destination the C9 search should filter by. -/
def fxBugDest : Port :=
  { porttype := "Port", obj := ⟨41⟩, owner := none, name := "d",
    properties := [], connCache := none }

/-- A connection that involves fxBugSelf but not fxBugDest. -/
def fxBugConn : Connection :=
  { name := "c", id := "cid", properties := [], ports := [("s", some ⟨40⟩)] }

/- Theorems -/

/-- Claim C2, counterexample: a generic port (type tag "Port") advertising
k = a, asked to connect with the requested property k = b — the key is
advertised, b is not among the allowed values and no wildcard occurs, so the
claim demands IncompatibleNegotiationError before any remote call; the code
skips the whole negotiation check for non-data ports and the call goes
through to the remote framework and succeeds. -/
theorem generic_port_skips_negotiation_cex :
    lookupDict fxGenProp.properties "k" = some "a" ∧
    (allowedValues "a").contains "b" = false ∧
    containsAny "a" = false ∧
    (Port.connect fxGenProp [] none "" [("k", "b")] (fun _ => 0)).result =
      .ok () ∧
    (Port.connect fxGenProp [] none "" [("k", "b")] (fun _ => 0)).sent ≠
      none := by
  decide

/-- Claim C9 (code bug): `get_connections_by_dests` is documented to return
the connections involving this port and all given destinations, but the
destination loop's `continue` targets the inner loop, which has no further
statement, so the filter is dead code: a connection involving only this port
is returned even though the sole requested destination is not an endpoint. -/
theorem get_connections_by_dests_ignores_dests :
    Port.get_connections_by_dests fxBugSelf [fxBugConn] [fxBugDest] =
      [fxBugConn] ∧
    Connection.has_port fxBugConn fxBugSelf = true ∧
    Connection.has_port fxBugConn fxBugDest = false := by
  decide

/-- Claim C8, counterexample: a profile with no port.port_type property does
not yield the generic Port variant — the dict indexing raises KeyError, so
parse_port can fail. -/
theorem parse_port_missing_key_cex :
    parse_port [] = .error .KeyError ∧ parse_port [] ≠ .ok PortKind.Port := by
  decide

/-- Claim C8 as amended: parse_port dispatches on the declared
port.port_type value — DataInPort, DataOutPort and CorbaPort select the
matching specialization, any other present value yields the generic Port
variant, and a missing value raises KeyError. -/
theorem parse_port_dispatch (props : List (String × String)) :
    (lookupDict props "port.port_type" = some "DataInPort" →
      parse_port props = .ok .DataInPort) ∧
    (lookupDict props "port.port_type" = some "DataOutPort" →
      parse_port props = .ok .DataOutPort) ∧
    (lookupDict props "port.port_type" = some "CorbaPort" →
      parse_port props = .ok .CorbaPort) ∧
    (∀ t, lookupDict props "port.port_type" = some t →
      t ≠ "DataInPort" → t ≠ "DataOutPort" → t ≠ "CorbaPort" →
      parse_port props = .ok .Port) ∧
    (lookupDict props "port.port_type" = none →
      parse_port props = .error .KeyError) := by
  refine ⟨?_, ?_, ?_, ?_, ?_⟩
  · intro h; simp [parse_port, h]
  · intro h; simp [parse_port, h]
  · intro h; simp [parse_port, h]
  · intro t h h1 h2 h3; simp [parse_port, h, h1, h2, h3]
  · intro h; simp [parse_port, h]

/-- Witness for parse_port_dispatch at a concrete unknown type value. -/
theorem parse_port_dispatch_witness :
    parse_port [("port.port_type", "Foo")] = .ok .Port :=
  (parse_port_dispatch [("port.port_type", "Foo")]).2.2.2.1 "Foo" (by decide)
    (by decide) (by decide) (by decide)

/-- Claim C6, counterexample: with an empty remote connection list, the
first read stores [] but the falsiness test `if not self._connections:`
does not recognise the stored empty list as a cache, so the second read
performs another remote fetch — the claim's "regardless of the list's
contents" fails. -/
theorem connections_empty_refetch_cex :
    ((fxC6.connections [] fxResolve).2.1).connCache = some [] ∧
    (((fxC6.connections [] fxResolve).2.1).connections [] fxResolve).2.2 =
      true := by
  decide

/-- Claim C6 as amended: after an invalidation (connCache = none — the state
construction, reparse, reparse_connections and a successful connect all
leave), the first read of connections fetches and stores the list built
from the remote connector profiles; provided that list is non-empty, every
subsequent read returns the stored list without a remote fetch and without
state change, whatever the remote now holds; an empty fetched list is not
recognised as cached and is refetched on every read. -/
theorem connections_cache_discipline (p : Port) (cps : List ConnectorProfile)
    (resolve : PortRef → String × Option PortRef)
    (hinv : p.connCache = none) :
    (p.connections cps resolve).2.2 = true ∧
    (p.connections cps resolve).1 =
      cps.map (fun cp => mkConnection cp resolve) ∧
    (cps ≠ [] →
      ∀ (cps2 : List ConnectorProfile)
        (resolve2 : PortRef → String × Option PortRef),
        ((p.connections cps resolve).2.1).connections cps2 resolve2 =
          ((p.connections cps resolve).1,
            (p.connections cps resolve).2.1, false)) ∧
    (∀ (q : Port) (profile : PortProfile),
      (q.reparse_connections).connCache = none ∧
      (q.reparse profile).connCache = none) := by
  refine ⟨?_, ?_, ?_, ?_⟩
  · simp [Port.connections, hinv, cacheEmpty]
  · simp [Port.connections, hinv, cacheEmpty]
  · intro hne cps2 resolve2
    have hmap : cps.map (fun cp => mkConnection cp resolve) ≠ [] := by
      simpa using hne
    simp [Port.connections, hinv, cacheEmpty, List.isEmpty_iff, hmap]
  · intro q profile
    exact ⟨rfl, rfl⟩

/-- Witness for connections_cache_discipline: one fetched non-empty list is
served from the cache on the second read, with no fetch, even though the
remote list has changed to empty. -/
theorem connections_cache_discipline_witness :
    ((fxC6.connections [fxCp] fxResolve).2.1).connections [] fxResolve =
      ((fxC6.connections [fxCp] fxResolve).1,
        (fxC6.connections [fxCp] fxResolve).2.1, false) :=
  (connections_cache_discipline fxC6 [fxCp] fxResolve rfl).2.2.1
    (by decide) [] fxResolve

/-- Claim C7, counterexample: a service port whose interface cache holds the
non-empty list [A]; after reparse (with the remote profile now carrying [B])
the next read of interfaces performs no fresh fetch and returns the stale
[A] — reparse() does not clear the interface cache. -/
theorem reparse_keeps_interface_cache_cex :
    ((fxCorbaCached.reparse fxProf).interfaces).2.2 = false ∧
    ((fxCorbaCached.reparse fxProf).interfaces).1 = [fxIntfProvA] ∧
    (fxCorbaCached.reparse fxProf).remoteIntfs = [fxIntfB] ∧
    fxIntfProvA ≠ fxIntfB := by
  decide

/-- Claim C7 as amended: the interface list is fetched whenever the cache is
unset or holds the empty list, and a cached non-empty list is returned
without a remote fetch or state change; reparse() refreshes the profile and
clears the connection cache but leaves the interface cache untouched, so
after reparse a previously cached non-empty interface list is served stale
with no fresh fetch. -/
theorem corba_interfaces_cache_discipline (cp : CorbaPort)
    (profile : PortProfile) :
    (cacheEmpty cp.intfCache = true →
      cp.interfaces =
        (cp.remoteIntfs, { cp with intfCache := some cp.remoteIntfs },
          true)) ∧
    (∀ l, cp.intfCache = some l → l ≠ [] → cp.interfaces = (l, cp, false)) ∧
    (cp.reparse profile).intfCache = cp.intfCache ∧
    (cp.reparse profile).port.connCache = none := by
  refine ⟨?_, ?_, rfl, rfl⟩
  · intro h
    simp [CorbaPort.interfaces, h]
  · intro l hl hne
    simp [CorbaPort.interfaces, cacheEmpty, hl, List.isEmpty_iff, hne]

/-- Witness for corba_interfaces_cache_discipline: the concrete cached
service port serves its non-empty cache without a fetch. -/
theorem corba_interfaces_cache_discipline_witness :
    fxCorbaCached.interfaces = ([fxIntfProvA], fxCorbaCached, false) :=
  (corba_interfaces_cache_discipline fxCorbaCached fxProf).2.1
    [fxIntfProvA] rfl (by decide)

/-- Claim C1: once the negotiation check does not fire, Port.connect sends
the composite profile built from this port and all destinations and (a)
raises FailedToConnectError carrying exactly the returned status code if and
only if that status is not RTC_OK, leaving every connection cache untouched,
and (b) on RTC_OK clears (does not refetch) this port's and every
destination's connection cache, changing nothing else. -/
theorem connect_status_and_caches (self : Port) (dests : List Port)
    (name : Option String) (id : String) (props : List (String × String))
    (connectRC : ConnectorProfile → Nat)
    (hv : ((self.porttype == "DataInPort" || self.porttype == "DataOutPort")
        && anyIncompatibleProp self dests props) = false) :
    ∀ profile : ConnectorProfile,
      profile = { name := effectiveName self dests name, connector_id := id,
                  ports := self.obj :: dests.map Port.obj,
                  properties := props } →
      (connectRC profile ≠ RTC_OK →
        Port.connect self dests name id props connectRC =
          { result := .error (.FailedToConnectError (connectRC profile)),
            sent := some profile, selfAfter := self, destsAfter := dests }) ∧
      (connectRC profile = RTC_OK →
        Port.connect self dests name id props connectRC =
          { result := .ok (), sent := some profile,
            selfAfter := { self with connCache := none },
            destsAfter :=
              dests.map (fun d => { d with connCache := none }) }) := by
  intro profile hp
  subst hp
  constructor
  · intro h
    simp [Port.connect, hv, h]
  · intro h
    simp [Port.connect, hv, h, Port.reparse_connections]

/-- Witness for connect_status_and_caches: a remote status of 1 surfaces as
FailedToConnectError 1 with both caches untouched; a status of 0 succeeds
and clears both caches. -/
theorem connect_status_and_caches_witness :
    Port.connect fxA [fxB] none "" [] (fun _ => 1) =
      { result := .error (.FailedToConnectError 1),
        sent := some { name := "ab", connector_id := "",
                       ports := [⟨10⟩, ⟨11⟩], properties := [] },
        selfAfter := fxA, destsAfter := [fxB] } ∧
    Port.connect fxA [fxB] none "" [] (fun _ => 0) =
      { result := .ok (),
        sent := some { name := "ab", connector_id := "",
                       ports := [⟨10⟩, ⟨11⟩], properties := [] },
        selfAfter := { fxA with connCache := none },
        destsAfter := [{ fxB with connCache := none }] } := by
  constructor
  · exact (connect_status_and_caches fxA [fxB] none "" [] (fun _ => 1)
      (by decide) _ rfl).1 (by decide)
  · exact (connect_status_and_caches fxA [fxB] none "" [] (fun _ => 0)
      (by decide) _ rfl).2 rfl

/-- Claim C2 as amended: the negotiation check of Port.connect runs only for
ports whose type tag is DataInPort or DataOutPort.  For such a port, a
caller-supplied property whose key is advertised by this port or some
destination with a requested value outside the comma-separated allowed
values (unless the substring "any" occurs case-insensitively in the
advertised string, which permits everything) makes connect fail with
IncompatibleDataPortConnectionPropsError, with no remote call and no state
change; ports of other kinds skip this validation entirely (see the
counterexample). -/
theorem data_port_negotiation_check (self : Port) (dests : List Port)
    (name : Option String) (id : String) (props : List (String × String))
    (connectRC : ConnectorProfile → Nat)
    (hk : self.porttype = "DataInPort" ∨ self.porttype = "DataOutPort")
    (hbad : ∃ kv ∈ props,
      propIncompatible self.properties kv.1 kv.2 = true ∨
      ∃ d ∈ dests, propIncompatible d.properties kv.1 kv.2 = true) :
    Port.connect self dests name id props connectRC =
      { result := .error .IncompatibleDataPortConnectionPropsError,
        sent := none, selfAfter := self, destsAfter := dests } := by
  have h1 : (self.porttype == "DataInPort"
      || self.porttype == "DataOutPort") = true := by
    rcases hk with h | h <;> simp [h]
  have h2 : anyIncompatibleProp self dests props = true := by
    unfold anyIncompatibleProp
    rw [List.any_eq_true]
    obtain ⟨kv, hkv, hor⟩ := hbad
    refine ⟨kv, hkv, ?_⟩
    rcases hor with h | ⟨d, hd, h⟩
    · simp [h]
    · have : dests.any (fun d => propIncompatible d.properties kv.1 kv.2)
          = true := List.any_eq_true.2 ⟨d, hd, h⟩
      simp [this]
  simp [Port.connect, h1, h2]

/-- Witness for data_port_negotiation_check: a data-in port advertising
k = a rejects a requested k = b before any remote call. -/
theorem data_port_negotiation_check_witness :
    Port.connect fxDinProp [] none "" [("k", "b")] (fun _ => 0) =
      { result := .error .IncompatibleDataPortConnectionPropsError,
        sent := none, selfAfter := fxDinProp, destsAfter := [] } :=
  data_port_negotiation_check fxDinProp [] none "" [("k", "b")] (fun _ => 0)
    (Or.inl rfl) ⟨("k", "b"), by decide, Or.inl (by decide)⟩

/-- The base Port.connect never raises WrongPortTypeError: its outcomes are
the negotiation error, the remote failure error, or success. -/
theorem base_connect_never_wrong_port_type (self : Port) (dests : List Port)
    (name : Option String) (id : String) (props : List (String × String))
    (connectRC : ConnectorProfile → Nat) :
    (Port.connect self dests name id props connectRC).result ≠
      .error .WrongPortTypeError := by
  unfold Port.connect
  split
  · simp
  · dsimp only
    split <;> simp

/-- Claim C3: DataPort.connect checks the destination directions before
delegating to the base connect — a data-in port fails with
WrongPortTypeError (and performs no remote call: sent = none, no state
change) exactly when no destination is a data-out port, and symmetrically
for a data-out port; when the required opposite destination is present the
call never raises WrongPortTypeError. -/
theorem dataport_direction_checks (self : Port) (dests : List Port)
    (name : Option String) (id : String) (props : List (String × String))
    (connectRC : ConnectorProfile → Nat) :
    ((self.porttype = "DataInPort" ∧
        (dests.map Port.porttype).contains "DataOutPort" = false) →
      DataPort.connect self dests name id props connectRC =
        { result := .error .WrongPortTypeError, sent := none,
          selfAfter := self, destsAfter := dests }) ∧
    ((self.porttype = "DataOutPort" ∧
        (dests.map Port.porttype).contains "DataInPort" = false) →
      DataPort.connect self dests name id props connectRC =
        { result := .error .WrongPortTypeError, sent := none,
          selfAfter := self, destsAfter := dests }) ∧
    ((self.porttype = "DataInPort" ∧
        (dests.map Port.porttype).contains "DataOutPort" = true) →
      (DataPort.connect self dests name id props connectRC).result ≠
        .error .WrongPortTypeError) ∧
    ((self.porttype = "DataOutPort" ∧
        (dests.map Port.porttype).contains "DataInPort" = true) →
      (DataPort.connect self dests name id props connectRC).result ≠
        .error .WrongPortTypeError) := by
  refine ⟨?_, ?_, ?_, ?_⟩
  · rintro ⟨h, hc⟩
    simp only [DataPort.connect]
    rw [h, hc]
    rfl
  · rintro ⟨h, hc⟩
    simp only [DataPort.connect]
    rw [h, hc]
    rfl
  · rintro ⟨h, hc⟩
    simp only [DataPort.connect]
    rw [h, hc]
    simp only [Bool.not_true, Bool.and_false, Bool.false_eq_true, if_false,
      String.reduceBEq, Bool.false_and]
    split
    · exact base_connect_never_wrong_port_type _ _ _ _ _ _
    · split
      · simp
      · exact base_connect_never_wrong_port_type _ _ _ _ _ _
  · rintro ⟨h, hc⟩
    simp only [DataPort.connect]
    rw [h, hc]
    simp only [Bool.not_true, Bool.and_false, Bool.false_eq_true, if_false,
      String.reduceBEq, Bool.false_and]
    split
    · exact base_connect_never_wrong_port_type _ _ _ _ _ _
    · split
      · simp
      · exact base_connect_never_wrong_port_type _ _ _ _ _ _

/-- Witness for dataport_direction_checks: connecting a data-in port to a
single data-in destination fails with WrongPortTypeError and performs no
remote call. -/
theorem dataport_direction_checks_witness :
    DataPort.connect fxDinA [fxDinB] none "" [] (fun _ => 0) =
      { result := .error .WrongPortTypeError, sent := none,
        selfAfter := fxDinA, destsAfter := [fxDinB] } :=
  (dataport_direction_checks fxDinA [fxDinB] none "" [] (fun _ => 0)).1
    ⟨rfl, by decide⟩

/-- Claim C10: when the name argument of Port.connect is None or the empty
string, the name placed in the composite profile passed to the remote
connect call is this port's name directly concatenated with the destination
names joined by an underscore; with a single destination that is the two
port names concatenated with no separator, and with no destinations it is
this port's name alone. -/
theorem default_connection_name_concat (self : Port) (dests : List Port)
    (name : Option String) (id : String) (props : List (String × String))
    (connectRC : ConnectorProfile → Nat)
    (hn : name = none ∨ name = some "")
    (hv : ((self.porttype == "DataInPort" || self.porttype == "DataOutPort")
        && anyIncompatibleProp self dests props) = false) :
    (∃ profile : ConnectorProfile,
      (Port.connect self dests name id props connectRC).sent = some profile ∧
      profile.name = self.name ++ pyJoin "_" (dests.map Port.name)) ∧
    (∀ d : Port, defaultConnectionName self [d] = self.name ++ d.name) ∧
    defaultConnectionName self [] = self.name := by
  refine ⟨?_, ?_, ?_⟩
  · have hname : effectiveName self dests name =
        defaultConnectionName self dests := by
      rcases hn with h | h <;> simp [h, effectiveName]
    refine ⟨{ name := effectiveName self dests name, connector_id := id,
              ports := self.obj :: dests.map Port.obj,
              properties := props }, ?_, by simp [hname, defaultConnectionName]⟩
    unfold Port.connect
    rw [hv]
    simp only [Bool.false_eq_true, if_false]
    split <;> rfl
  · intro d
    simp [defaultConnectionName, pyJoin]
  · simp [defaultConnectionName, pyJoin, String.append_empty]

/-- Witness for default_connection_name_concat: with a single destination
the default name is the plain concatenation "ab". -/
theorem default_connection_name_concat_witness :
    (∃ profile : ConnectorProfile,
      (Port.connect fxA [fxB] none "" [] (fun _ => 0)).sent = some profile ∧
      profile.name = fxA.name ++ pyJoin "_" ([fxB].map Port.name)) ∧
    defaultConnectionName fxA [fxB] = "ab" := by
  constructor
  · exact (default_connection_name_concat fxA [fxB] none "" [] (fun _ => 0)
      (Or.inl rfl) (by decide)).1
  · have h := (default_connection_name_concat fxA [fxB] none "" []
      (fun _ => 0) (Or.inl rfl) (by decide)).2.1 fxB
    simpa using h

/-- The endpoint scan finds nothing when no endpoint resolved. -/
theorem findResolvedPort_eq_none (l : List (String × Option PortRef))
    (h : ∀ e ∈ l, e.2 = none) : findResolvedPort l = none := by
  induction l with
  | nil => rfl
  | cons e rest ih =>
      obtain ⟨s, o⟩ := e
      have h0 : o = none := h (s, o) (by simp)
      subst h0
      exact ih (fun e he => h e (by simp [he]))

/-- The endpoint scan returns the port of the first resolved record. -/
theorem findResolvedPort_first (l : List (String × Option PortRef)) :
    ∀ (i : Nat) (hi : i < l.length) (p : PortRef),
      (∀ (j : Nat) (hj : j < l.length), j < i → (l.get ⟨j, hj⟩).2 = none) →
      (l.get ⟨i, hi⟩).2 = some p →
      findResolvedPort l = some p := by
  induction l with
  | nil => intro i hi; simp at hi
  | cons e rest ih =>
      intro i hi p hbefore hp
      cases i with
      | zero =>
          obtain ⟨s, o⟩ := e
          simp only [List.get] at hp
          subst hp
          rfl
      | succ i =>
          have h0 : e.2 = none :=
            hbefore 0 (Nat.succ_pos _) (Nat.succ_pos _)
          obtain ⟨s, o⟩ := e
          subst h0
          simp only [findResolvedPort]
          exact ih i (Nat.lt_of_succ_lt_succ hi) p
            (fun j hj hlt =>
              hbefore (j + 1) (Nat.succ_lt_succ hj) (Nat.succ_lt_succ hlt))
            hp

/-- Claim C5: disconnect fails with NotConnectedError on an empty endpoint
list; with endpoints but none resolved it fails with
UnknownConnectionOwnerError; and it issues the remote disconnect with this
connection's id through the first endpoint whose Port resolved. -/
theorem connection_disconnect_spec (c : Connection) :
    (c.ports = [] → c.disconnect = .error .NotConnectedError) ∧
    (c.ports ≠ [] → (∀ e ∈ c.ports, e.2 = none) →
      c.disconnect = .error .UnknownConnectionOwnerError) ∧
    (∀ (i : Nat) (hi : i < c.ports.length) (p : PortRef),
      (∀ (j : Nat) (hj : j < c.ports.length), j < i →
        (c.ports.get ⟨j, hj⟩).2 = none) →
      (c.ports.get ⟨i, hi⟩).2 = some p →
      c.disconnect = .ok (p, c.id)) := by
  refine ⟨?_, ?_, ?_⟩
  · intro h
    simp [Connection.disconnect, h]
  · intro hne hall
    have h1 : c.ports.isEmpty = false := by
      simpa [List.isEmpty_iff] using hne
    simp [Connection.disconnect, h1, findResolvedPort_eq_none c.ports hall]
  · intro i hi p hbefore hp
    have hne : c.ports ≠ [] := by
      intro h
      rw [h] at hi
      simp at hi
    have h1 : c.ports.isEmpty = false := by
      simpa [List.isEmpty_iff] using hne
    simp [Connection.disconnect, h1,
      findResolvedPort_first c.ports i hi p hbefore hp]

/-- Witness for connection_disconnect_spec: a sole unresolved endpoint fails
with UnknownConnectionOwnerError; with an unresolved first endpoint and a
resolved second one, the disconnect goes through the resolved endpoint with
this connection's id. -/
theorem connection_disconnect_spec_witness :
    Connection.disconnect fxConnUnknown =
      .error .UnknownConnectionOwnerError ∧
    Connection.disconnect fxConnMixed = .ok (⟨5⟩, "idm") := by
  constructor
  · exact (connection_disconnect_spec fxConnUnknown).2.1 (by decide)
      (by decide)
  · exact (connection_disconnect_spec fxConnMixed).2.2 1 (by decide) ⟨5⟩
      (fun j hj hlt => by
        have hj0 : j = 0 := by omega
        subst hj0
        rfl)
      rfl

/-- The per-interface destination scan succeeds exactly when every
destination has a matching instance name with opposite polarity. -/
theorem checkIntfAgainstDests_ok_iff (intf : SvcInterface)
    (dests : List CorbaPort) :
    checkIntfAgainstDests intf dests = .ok () ↔
      ∀ d ∈ dests, ∃ m,
        d.get_interface_by_instance_name intf.instance_name = some m ∧
        intf.polarity ≠ m.polarity := by
  induction dests with
  | nil => simp [checkIntfAgainstDests]
  | cons d rest ih =>
      simp only [checkIntfAgainstDests, List.forall_mem_cons]
      cases hfind : d.get_interface_by_instance_name intf.instance_name with
      | none => simp [hfind]
      | some m =>
          by_cases hp : intf.polarity = m.polarity
          · simp [hfind, hp]
          · simp [hfind, hp, ih]

/-- The per-interface destination scan only ever returns success, the
missing-interface error, or the polarity error. -/
theorem checkIntfAgainstDests_cases (intf : SvcInterface)
    (dests : List CorbaPort) :
    checkIntfAgainstDests intf dests = .ok () ∨
    checkIntfAgainstDests intf dests = .error .MismatchedInterfacesError ∨
    checkIntfAgainstDests intf dests = .error .MismatchedPolarityError := by
  induction dests with
  | nil => left; rfl
  | cons d rest ih =>
      simp only [checkIntfAgainstDests]
      cases hfind : d.get_interface_by_instance_name intf.instance_name with
      | none => right; left; rfl
      | some m =>
          by_cases hp : intf.polarity = m.polarity
          · right; right; simp [hp]
          · simpa [hp] using ih

/-- When every destination has a matching instance name, the per-interface
scan cannot raise the missing-interface error. -/
theorem checkIntfAgainstDests_no_missing (intf : SvcInterface)
    (dests : List CorbaPort)
    (h : ∀ d ∈ dests,
      (d.get_interface_by_instance_name intf.instance_name).isSome = true) :
    checkIntfAgainstDests intf dests ≠ .error .MismatchedInterfacesError := by
  induction dests with
  | nil => simp [checkIntfAgainstDests]
  | cons d rest ih =>
      simp only [checkIntfAgainstDests]
      cases hfind : d.get_interface_by_instance_name intf.instance_name with
      | none =>
          have hd := h d (by simp)
          rw [hfind] at hd
          simp at hd
      | some m =>
          by_cases hp : intf.polarity = m.polarity
          · simp [hp]
          · simpa [hp] using ih (fun d' hd' => h d' (by simp [hd']))

/-- When every matched pair has opposite polarity, the per-interface scan
cannot raise the polarity error. -/
theorem checkIntfAgainstDests_no_polarity (intf : SvcInterface)
    (dests : List CorbaPort)
    (h : ∀ d ∈ dests, ∀ m,
      d.get_interface_by_instance_name intf.instance_name = some m →
      intf.polarity ≠ m.polarity) :
    checkIntfAgainstDests intf dests ≠ .error .MismatchedPolarityError := by
  induction dests with
  | nil => simp [checkIntfAgainstDests]
  | cons d rest ih =>
      simp only [checkIntfAgainstDests]
      cases hfind : d.get_interface_by_instance_name intf.instance_name with
      | none => simp
      | some m =>
          have hp : intf.polarity ≠ m.polarity := h d (by simp) m hfind
          simpa [hp] using ih (fun d' hd' m' hm' => h d' (by simp [hd']) m' hm')

/-- The whole interface loop succeeds exactly when every declared interface
passes against every destination. -/
theorem checkIntfsAgainstDests_ok_iff (intfs : List SvcInterface)
    (dests : List CorbaPort) :
    checkIntfsAgainstDests intfs dests = .ok () ↔
      ∀ intf ∈ intfs, checkIntfAgainstDests intf dests = .ok () := by
  induction intfs with
  | nil => simp [checkIntfsAgainstDests]
  | cons intf rest ih =>
      simp only [checkIntfsAgainstDests, List.forall_mem_cons]
      cases h : checkIntfAgainstDests intf dests with
      | error e => simp [h]
      | ok u => cases u; simp [h, ih]

/-- The whole interface loop only ever returns success, the
missing-interface error, or the polarity error. -/
theorem checkIntfsAgainstDests_cases (intfs : List SvcInterface)
    (dests : List CorbaPort) :
    checkIntfsAgainstDests intfs dests = .ok () ∨
    checkIntfsAgainstDests intfs dests = .error .MismatchedInterfacesError ∨
    checkIntfsAgainstDests intfs dests = .error .MismatchedPolarityError := by
  induction intfs with
  | nil => left; rfl
  | cons intf rest ih =>
      simp only [checkIntfsAgainstDests]
      cases h : checkIntfAgainstDests intf dests with
      | error e =>
          have hc := checkIntfAgainstDests_cases intf dests
          rw [h] at hc
          simpa using hc
      | ok u => cases u; simpa using ih

/-- When every declared interface has a match in every destination, the
whole loop cannot raise the missing-interface error. -/
theorem checkIntfsAgainstDests_no_missing (intfs : List SvcInterface)
    (dests : List CorbaPort)
    (h : ∀ intf ∈ intfs, ∀ d ∈ dests,
      (d.get_interface_by_instance_name intf.instance_name).isSome = true) :
    checkIntfsAgainstDests intfs dests ≠ .error .MismatchedInterfacesError := by
  induction intfs with
  | nil => simp [checkIntfsAgainstDests]
  | cons intf rest ih =>
      simp only [checkIntfsAgainstDests]
      cases hc : checkIntfAgainstDests intf dests with
      | error e =>
          have hne := checkIntfAgainstDests_no_missing intf dests
            (h intf (by simp))
          rw [hc] at hne
          simpa using hne
      | ok u =>
          cases u
          simpa using ih (fun intf' hi d hd => h intf' (by simp [hi]) d hd)

/-- When every matched pair has opposite polarity, the whole loop cannot
raise the polarity error. -/
theorem checkIntfsAgainstDests_no_polarity (intfs : List SvcInterface)
    (dests : List CorbaPort)
    (h : ∀ intf ∈ intfs, ∀ d ∈ dests, ∀ m,
      d.get_interface_by_instance_name intf.instance_name = some m →
      intf.polarity ≠ m.polarity) :
    checkIntfsAgainstDests intfs dests ≠ .error .MismatchedPolarityError := by
  induction intfs with
  | nil => simp [checkIntfsAgainstDests]
  | cons intf rest ih =>
      simp only [checkIntfsAgainstDests]
      cases hc : checkIntfAgainstDests intf dests with
      | error e =>
          have hne := checkIntfAgainstDests_no_polarity intf dests
            (h intf (by simp))
          rw [hc] at hne
          simpa using hne
      | ok u =>
          cases u
          simpa using ih (fun intf' hi d hd m hm => h intf' (by simp [hi]) d hd m hm)

/-- Claim C4: CorbaPort.connect raises WrongPortTypeError when some
destination is not a service port; when this port declares no interfaces, a
destination declaring some raises MismatchedInterfacesError, and when none
does the call passes on to the base connect; when this port declares
interfaces, all checks pass exactly when every declared interface has a
same-named match with opposite polarity in every destination, a missing
name (with all actual matches opposite) raises MismatchedInterfacesError,
and a same-polarity match (with all names present) raises
MismatchedPolarityError; in particular {A: Provided} to {A: Required}
passes all checks and both-Provided fails with MismatchedPolarityError. -/
theorem corba_connect_checks (self : CorbaPort) (dests : List CorbaPort)
    (name : Option String) (id : String) (props : List (String × String))
    (connectRC : ConnectorProfile → Nat) :
    ((∃ d ∈ dests, d.port.porttype ≠ "CorbaPort") →
      CorbaPort.connect self dests name id props connectRC =
        { result := .error .WrongPortTypeError, sent := none,
          selfAfter := self, destsAfter := dests }) ∧
    ((∀ d ∈ dests, d.port.porttype = "CorbaPort") →
      self.interfacesVal = [] →
      ((∃ d ∈ dests, d.interfacesVal ≠ []) →
        CorbaPort.connect self dests name id props connectRC =
          { result := .error .MismatchedInterfacesError, sent := none,
            selfAfter := self, destsAfter := dests }) ∧
      ((∀ d ∈ dests, d.interfacesVal = []) →
        (CorbaPort.connect self dests name id props connectRC).result =
          (corbaBaseCall self dests name id props connectRC).result ∧
        (CorbaPort.connect self dests name id props connectRC).sent =
          (corbaBaseCall self dests name id props connectRC).sent)) ∧
    ((∀ d ∈ dests, d.port.porttype = "CorbaPort") →
      self.interfacesVal ≠ [] →
      ((∀ intf ∈ self.interfacesVal, ∀ d ∈ dests, ∃ m,
          d.get_interface_by_instance_name intf.instance_name = some m ∧
          intf.polarity ≠ m.polarity) →
        (CorbaPort.connect self dests name id props connectRC).result =
          (corbaBaseCall self dests name id props connectRC).result ∧
        (CorbaPort.connect self dests name id props connectRC).sent =
          (corbaBaseCall self dests name id props connectRC).sent) ∧
      ((∀ intf ∈ self.interfacesVal, ∀ d ∈ dests,
          (d.get_interface_by_instance_name intf.instance_name).isSome =
            true) →
        (∃ intf ∈ self.interfacesVal, ∃ d ∈ dests, ∃ m,
          d.get_interface_by_instance_name intf.instance_name = some m ∧
          intf.polarity = m.polarity) →
        CorbaPort.connect self dests name id props connectRC =
          { result := .error .MismatchedPolarityError, sent := none,
            selfAfter := self, destsAfter := dests }) ∧
      ((∀ intf ∈ self.interfacesVal, ∀ d ∈ dests, ∀ m,
          d.get_interface_by_instance_name intf.instance_name = some m →
          intf.polarity ≠ m.polarity) →
        (∃ intf ∈ self.interfacesVal, ∃ d ∈ dests,
          d.get_interface_by_instance_name intf.instance_name = none) →
        CorbaPort.connect self dests name id props connectRC =
          { result := .error .MismatchedInterfacesError, sent := none,
            selfAfter := self, destsAfter := dests })) ∧
    (CorbaPort.connect fxSvcProv [fxSvcReq] none "" [] (fun _ => 0)).result =
      .ok () ∧
    (CorbaPort.connect fxSvcProv [fxSvcProvB] none "" []
        (fun _ => 0)).result = .error .MismatchedPolarityError := by
  refine ⟨?_, ?_, ?_, by decide, by decide⟩
  · rintro ⟨d, hd, hne⟩
    have hA : dests.any (fun x => !(x.port.porttype == "CorbaPort")) = true :=
      List.any_eq_true.2 ⟨d, hd, by simp [hne]⟩
    have hchk : corbaChecks self dests = .error .WrongPortTypeError := by
      simp [corbaChecks, hA]
    simp [CorbaPort.connect, hchk]
  · intro hC h0
    have hA : dests.any (fun x => !(x.port.porttype == "CorbaPort"))
        = false := by
      rw [List.any_eq_false]
      intro d hd
      simp [hC d hd]
    constructor
    · rintro ⟨d, hd, hdne⟩
      have hB : dests.any (fun x => !(x.interfacesVal).isEmpty) = true :=
        List.any_eq_true.2 ⟨d, hd, by simp [List.isEmpty_iff, hdne]⟩
      have hchk : corbaChecks self dests =
          .error .MismatchedInterfacesError := by
        simp [corbaChecks, hA, h0, hB]
      simp [CorbaPort.connect, hchk]
    · intro hall
      have hB : dests.any (fun x => !(x.interfacesVal).isEmpty) = false := by
        rw [List.any_eq_false]
        intro d hd
        simp [hall d hd]
      have hchk : corbaChecks self dests = .ok () := by
        simp [corbaChecks, hA, h0, hB]
      constructor <;> simp [CorbaPort.connect, hchk]
  · intro hC hne0
    have hA : dests.any (fun x => !(x.port.porttype == "CorbaPort"))
        = false := by
      rw [List.any_eq_false]
      intro d hd
      simp [hC d hd]
    have hNE : (self.interfacesVal).isEmpty = false := by
      simp [List.isEmpty_iff, hne0]
    refine ⟨?_, ?_, ?_⟩
    · intro hopp
      have hNoEmpty : dests.any (fun x => (x.interfacesVal).isEmpty)
          = false := by
        rw [List.any_eq_false]
        intro d hd
        obtain ⟨intf0, h0⟩ := List.exists_mem_of_ne_nil _ hne0
        obtain ⟨m, hm, _⟩ := hopp intf0 h0 d hd
        have hmem : m ∈ d.interfacesVal := by
          simp only [CorbaPort.get_interface_by_instance_name] at hm
          exact List.mem_of_find?_eq_some hm
        simpa [List.isEmpty_iff] using List.ne_nil_of_mem hmem
      have hok : checkIntfsAgainstDests self.interfacesVal dests = .ok () :=
        (checkIntfsAgainstDests_ok_iff _ _).2 (fun intf hi =>
          (checkIntfAgainstDests_ok_iff _ _).2 (hopp intf hi))
      have hchk : corbaChecks self dests = .ok () := by
        simp [corbaChecks, hA, hNE, hNoEmpty, hok]
      constructor <;> simp [CorbaPort.connect, hchk]
    · intro hsome hex
      have hNoEmpty : dests.any (fun x => (x.interfacesVal).isEmpty)
          = false := by
        rw [List.any_eq_false]
        intro d hd
        obtain ⟨intf0, h0⟩ := List.exists_mem_of_ne_nil _ hne0
        have hs := hsome intf0 h0 d hd
        rw [Option.isSome_iff_exists] at hs
        obtain ⟨m, hm⟩ := hs
        have hmem : m ∈ d.interfacesVal := by
          simp only [CorbaPort.get_interface_by_instance_name] at hm
          exact List.mem_of_find?_eq_some hm
        simpa [List.isEmpty_iff] using List.ne_nil_of_mem hmem
      have hnok : checkIntfsAgainstDests self.interfacesVal dests
          ≠ .ok () := by
        intro hok
        obtain ⟨intf, hi, d, hd, m, hm, heq⟩ := hex
        obtain ⟨m', hm', hne'⟩ :=
          (checkIntfAgainstDests_ok_iff _ _).1
            ((checkIntfsAgainstDests_ok_iff _ _).1 hok intf hi) d hd
        rw [hm] at hm'
        cases hm'
        exact hne' heq
      have hnmi : checkIntfsAgainstDests self.interfacesVal dests ≠
          .error .MismatchedInterfacesError :=
        checkIntfsAgainstDests_no_missing _ _ hsome
      rcases checkIntfsAgainstDests_cases self.interfacesVal dests
        with h | h | h
      · exact absurd h hnok
      · exact absurd h hnmi
      · have hchk : corbaChecks self dests =
            .error .MismatchedPolarityError := by
          simp [corbaChecks, hA, hNE, hNoEmpty, h]
        simp [CorbaPort.connect, hchk]
    · intro hopp2 hexnone
      by_cases hcase : dests.any (fun x => (x.interfacesVal).isEmpty) = true
      · have hchk : corbaChecks self dests =
            .error .MismatchedInterfacesError := by
          simp [corbaChecks, hA, hNE, hcase]
        simp [CorbaPort.connect, hchk]
      · have hcase' : dests.any (fun x => (x.interfacesVal).isEmpty)
            = false := by
          simpa using hcase
        have hnok : checkIntfsAgainstDests self.interfacesVal dests
            ≠ .ok () := by
          intro hok
          obtain ⟨intf, hi, d, hd, hnone⟩ := hexnone
          obtain ⟨m', hm', _⟩ :=
            (checkIntfAgainstDests_ok_iff _ _).1
              ((checkIntfsAgainstDests_ok_iff _ _).1 hok intf hi) d hd
          rw [hnone] at hm'
          cases hm'
        have hnpol : checkIntfsAgainstDests self.interfacesVal dests ≠
            .error .MismatchedPolarityError :=
          checkIntfsAgainstDests_no_polarity _ _ hopp2
        rcases checkIntfsAgainstDests_cases self.interfacesVal dests
          with h | h | h
        · exact absurd h hnok
        · have hchk : corbaChecks self dests =
              .error .MismatchedInterfacesError := by
            simp [corbaChecks, hA, hNE, hcase', h]
          simp [CorbaPort.connect, hchk]
        · exact absurd h hnpol

/-- Witness for corba_connect_checks: a non-service destination is rejected
with WrongPortTypeError and no remote call. -/
theorem corba_connect_checks_witness :
    CorbaPort.connect fxSvcProv [fxSvcBad] none "" [] (fun _ => 0) =
      { result := .error .WrongPortTypeError, sent := none,
        selfAfter := fxSvcProv, destsAfter := [fxSvcBad] } :=
  (corba_connect_checks fxSvcProv [fxSvcBad] none "" [] (fun _ => 0)).1
    ⟨fxSvcBad, by decide, by decide⟩
